import Mathlib

/-!
Verification of the LLM provider pool and VPN controller of the TSMYK
api-gateway against its natural-language specification.

The Python sources under `app/clients`, `app/core` and `app/services` are
shallowly embedded below: pure fragments become Lean functions, the retry
loops become fuel-indexed recursions over an explicit attempt schedule, and
the stateful pool becomes explicit state passing.  Components whose source
files are not part of the snapshot (`circuit_breaker.py`, `rate_limiter.py`,
`key_pool.py`, `openrouter.py`) are modelled from the specification text and
are marked `Modelled from the spec:` in their doc comments.
-/

/-! ## String helpers (substring search, Python-style int parsing) -/

/-- Test whether the character list `n` is a prefix of `h`. -/
def charsPrefix : List Char → List Char → Bool
  | [], _ => true
  | _ :: _, [] => false
  | a :: as, b :: bs => a == b && charsPrefix as bs

/-- Test whether `n` occurs contiguously inside `h`. -/
def charsSub (needle : List Char) : List Char → Bool
  | [] => needle.isEmpty
  | c :: rest => charsPrefix needle (c :: rest) || charsSub needle rest

/-- Embeds the Python containment test `needle in hay` on strings. -/
def strContains (hay needle : String) : Bool :=
  charsSub needle.data hay.data

/-- Embeds the Python call `int(s)` on a header value: optional surrounding whitespace,
optional sign, at least one digit.  Returns `none` when a `ValueError`
would be raised. -/
def parsePyInt (s : String) : Option Int :=
  let t := s.trim
  let (sign, digits) :=
    if t.startsWith "-" then ((-1 : Int), t.drop 1)
    else if t.startsWith "+" then ((1 : Int), t.drop 1)
    else ((1 : Int), t)
  if digits.length > 0 && digits.all Char.isDigit then
    some (sign * Int.ofNat (digits.foldl (fun n c => n * 10 + (c.toNat - 48)) 0))
  else none

/-! ## Gemini client error taxonomy (`app/clients/exceptions.py`) -/

/-- The typed errors raised by the Gemini client.  `base` stands for the
bare `GeminiClientError` used for network errors, unexpected status codes
and the unreachable end of the retry loop. -/
inductive GemErr where
  | rateLimit (retryAfter : Option Int)
  | service (status : Nat)
  | server (status : Nat)
  | timedOut
  | auth
  | validation
  | base (msg : String)
  deriving Repr, DecidableEq

/-! ## HTTP transport error mapping (`HttpxTransport.request`) -/

/-- The 429 body sniff of `HttpxTransport.request`: the lowercased response
body is searched for the four key-specific indicator substrings. -/
def sniff429 (body : String) : Bool :=
  let lower := body.toLower
  strContains lower "quota" || strContains lower "api key" ||
    strContains lower "rate limit" || strContains lower "per key"

/-- Retry-After extraction of `HttpxTransport.request`: the header value,
when present, is fed to Python `int`; a parse failure leaves `None`. -/
def extractRetryAfter (retryAfterHeader : Option String) : Option Int :=
  retryAfterHeader.bind parsePyInt

/-- Status-code-to-typed-error mapping of `HttpxTransport.request`
(`gemini.py` lines 133-224): 429 is split by the body sniff, then 503,
401/403, other 4xx, 5xx, and a fallback for anything else. -/
def mapHttpStatus (status : Nat) (body : String) (retryAfterHeader : Option String) : GemErr :=
  let retryAfter := extractRetryAfter retryAfterHeader
  if status = 429 then
    if sniff429 body then GemErr.rateLimit retryAfter else GemErr.service 429
  else if status = 503 then GemErr.service 503
  else if status = 401 ∨ status = 403 then GemErr.auth
  else if 400 ≤ status ∧ status < 500 then GemErr.validation
  else if 500 ≤ status then GemErr.server status
  else GemErr.base "Unexpected status"

/-- Outcome of one HTTP exchange as seen by the transport. -/
inductive HttpOutcome where
  | success (payload : String)
  | httpStatus (status : Nat) (body : String) (retryAfterHeader : Option String)
  | timedOut
  | netError (msg : String)
  deriving Repr, DecidableEq

/-- Embeds `HttpxTransport.request`: success returns the JSON payload, a timeout
raises `GeminiTimeoutError`, an HTTP status error is mapped by
`mapHttpStatus`, and any other request error raises the base
`GeminiClientError`. -/
def transportRequest : HttpOutcome → Except GemErr String
  | .success p => .ok p
  | .httpStatus st body hdr => .error (mapHttpStatus st body hdr)
  | .timedOut => .error GemErr.timedOut
  | .netError m => .error (GemErr.base ("Network error: " ++ m))

/-! ## Gemini single-key retry loop (`GeminiClient._request_with_retry`) -/

/-- Backoff delay chosen by `_request_with_retry` for a retryable error at
zero-based attempt index `attempt`; `none` means the error is re-raised
immediately without a further attempt.  `GeminiRateLimitError.retry_after`
is used only when truthy in Python, i.e. present and nonzero. -/
def geminiRetryDelay (e : GemErr) (attempt : Nat) : Option Int :=
  match e with
  | .service _ => some 30
  | .rateLimit (some t) => some (if t ≠ 0 then t else (2 : Int) ^ attempt)
  | .rateLimit none => some ((2 : Int) ^ attempt)
  | .server _ => some ((2 : Int) ^ attempt)
  | .timedOut => some ((2 : Int) ^ attempt)
  | .auth => none
  | .validation => none
  | .base _ => none

/-- Result of a retry loop run: the final outcome, the inter-attempt sleep
durations in order, and how many attempts were dispatched. -/
structure RetryRun where
  result : Except GemErr String
  sleeps : List Int
  attemptsUsed : Nat
  deriving Repr

/-- The body of `_request_with_retry`: `remaining` is how many attempts are
still allowed (including the current one), `attempt` the zero-based index of
the current attempt, `lastExc` the last stored exception, `acc` the sleeps
so far and `used` the attempts dispatched so far.  `resp` gives the
transport outcome of each attempt. -/
def geminiRetryAux (resp : Nat → Except GemErr String) :
    Nat → Nat → Option GemErr → List Int → Nat → RetryRun
  | 0, _, lastExc, acc, used =>
      { result := .error (lastExc.getD (GemErr.base "Retry loop ended unexpectedly")),
        sleeps := acc, attemptsUsed := used }
  | remaining + 1, attempt, _, acc, used =>
      match resp attempt with
      | .ok p => { result := .ok p, sleeps := acc, attemptsUsed := used + 1 }
      | .error e =>
        match geminiRetryDelay e attempt with
        | none => { result := .error e, sleeps := acc, attemptsUsed := used + 1 }
        | some d =>
          if remaining = 0 then
            { result := .error e, sleeps := acc, attemptsUsed := used + 1 }
          else
            geminiRetryAux resp remaining (attempt + 1) (some e) (acc ++ [d]) (used + 1)

/-- Embeds `GeminiClient._request_with_retry`: executes at least once even when
`max_retries = 0`; `resp` maps each attempt index to its transport
outcome. -/
def geminiRequestWithRetry (maxRetries : Nat) (resp : Nat → Except GemErr String) : RetryRun :=
  geminiRetryAux resp (max 1 maxRetries) 0 none [] 0

/-! ## Rate limiter, circuit breaker, key pool

`rate_limiter.py`, `circuit_breaker.py` and `key_pool.py` are not part of
the source snapshot (only `openrouter_pool.py` imports them), so they are
modelled from the specification text (§4.1-§4.3). -/

/-- Modelled from the spec: §4.1 token bucket state of the missing
`rate_limiter.py` (`qps` refill rate, `burstSize`, current tokens, last
refill instant).  Time is rational seconds on a monotonic clock. -/
structure RateLimiter where
  qps : Rat
  burst : Rat
  tokens : Rat
  lastRefill : Rat
  deriving Repr, DecidableEq

/-- Modelled from the spec: §4.1 "refill since `lastRefill`, cap at
`burstSize`". -/
def rlRefill (now : Rat) (rl : RateLimiter) : RateLimiter :=
  { rl with tokens := min rl.burst (rl.tokens + (now - rl.lastRefill) * rl.qps),
            lastRefill := now }

/-- Modelled from the spec: §4.1 `TryAcquire` — refill, then if
`tokens ≥ 1` decrement and return true, else return false. -/
def rlTryAcquire (now : Rat) (rl : RateLimiter) : Bool × RateLimiter :=
  let rl2 := rlRefill now rl
  if 1 ≤ rl2.tokens then (true, { rl2 with tokens := rl2.tokens - 1 })
  else (false, rl2)

/-- Modelled from the spec: §4.1 blocking `Acquire` — as `TryAcquire`, but
when no token is available sleep exactly long enough for one token to
accrue and take it.  Returns the new state and the time waited. -/
def rlAcquire (now : Rat) (rl : RateLimiter) : RateLimiter × Rat :=
  let rl2 := rlRefill now rl
  if 1 ≤ rl2.tokens then ({ rl2 with tokens := rl2.tokens - 1 }, 0)
  else
    let wait := (1 - rl2.tokens) / rl2.qps
    ({ rl2 with tokens := 0, lastRefill := now + wait }, wait)

/-- The three circuit breaker states of §4.2 (`opened` stands for the state the spec calls `Open`). -/
inductive CircuitState where
  | closed
  | opened
  | halfOpen
  deriving Repr, DecidableEq

/-- Modelled from the spec: §4.2 circuit breaker state of the missing
`circuit_breaker.py` — `failureThreshold` (default 5), `recoveryTimeout`
(default 60 s), consecutive failure count and opening instant. -/
structure Breaker where
  failureThreshold : Nat
  recoveryTimeout : Rat
  st : CircuitState
  consecutiveFailures : Nat
  openedAt : Option Rat
  deriving Repr, DecidableEq

/-- A fresh closed breaker. -/
def newBreaker (threshold : Nat) (recovery : Rat) : Breaker :=
  { failureThreshold := threshold, recoveryTimeout := recovery,
    st := CircuitState.closed, consecutiveFailures := 0, openedAt := none }

/-- Modelled from the spec: §4.2 `RecordFailure` — increment the count;
from `HalfOpen` reopen (resetting `openedAt`); from `Closed` open once
`failureCount ≥ threshold`. -/
def cbRecordFailure (now : Rat) (b : Breaker) : Breaker :=
  let cf := b.consecutiveFailures + 1
  match b.st with
  | CircuitState.halfOpen =>
      { b with st := CircuitState.opened, consecutiveFailures := cf, openedAt := some now }
  | CircuitState.opened => { b with consecutiveFailures := cf }
  | CircuitState.closed =>
      if b.failureThreshold ≤ cf then
        { b with st := CircuitState.opened, consecutiveFailures := cf, openedAt := some now }
      else { b with consecutiveFailures := cf }

/-- Modelled from the spec: §4.2 `RecordSuccess` — `HalfOpen` closes, and
success always resets `consecutiveFailures`. -/
def cbRecordSuccess (b : Breaker) : Breaker :=
  match b.st with
  | CircuitState.halfOpen => { b with st := CircuitState.closed, consecutiveFailures := 0 }
  | _ => { b with consecutiveFailures := 0 }

/-- Modelled from the spec: §4.2 reads of `State()` in `Open` check the
elapsed time and report `HalfOpen` once `recoveryTimeout` has passed. -/
def cbReadState (now : Rat) (b : Breaker) : CircuitState :=
  match b.st, b.openedAt with
  | CircuitState.opened, some t =>
      if b.recoveryTimeout ≤ now - t then CircuitState.halfOpen else CircuitState.opened
  | s, _ => s

/-- Pointwise update of a per-key table. -/
def updateMap {α : Type} (f : String → α) (k : String) (v : α) : String → α :=
  fun x => if x = k then v else f x

/-- State of `OpenRouterPoolClient`: the key list and round-robin cursor
(modelled from the spec §4.3 for the missing `key_pool.py`), plus the
per-key breakers, limiters and liveness counters.  Per-key tables are
functions keyed by the key string, mirroring the Python dicts. -/
structure PoolState where
  keys : List String
  cursor : Nat
  breakers : String → Breaker
  limiters : String → RateLimiter
  totalSuccesses : String → Nat
  totalFailures : String → Nat
  failStatuses : String → List (Option Nat)

/-- Modelled from the spec: §4.3 round-robin `Next()` — monotonically
increasing cursor mod N. -/
def poolNextKey (s : PoolState) : String × PoolState :=
  (s.keys.getD (s.cursor % s.keys.length) "", { s with cursor := s.cursor + 1 })

/-- Modelled from the spec: §4.3 `RecordSuccess`. -/
def poolRecordSuccess (s : PoolState) (k : String) : PoolState :=
  { s with totalSuccesses := updateMap s.totalSuccesses k (s.totalSuccesses k + 1) }

/-- Modelled from the spec: §4.3 `RecordFailure(key, statusCode)`; the
status (possibly `None` in Python) is logged per key. -/
def poolRecordFailure (s : PoolState) (k : String) (status : Option Nat) : PoolState :=
  { s with totalFailures := updateMap s.totalFailures k (s.totalFailures k + 1),
           failStatuses := updateMap s.failStatuses k (s.failStatuses k ++ [status]) }

/-! ## Key selection (`OpenRouterPoolClient._select_key`) -/

/-- One observable event of a `_select_key` run. -/
inductive SelEvent where
  | skippedOpen (k : String)
  | skippedRate (k : String)
  | accepted (k : String)
  | fallbackBlocking (k : String)
  deriving Repr, DecidableEq

/-- The loop of `_select_key` with `fuel` iterations left: take the next
round-robin key; skip it when its breaker reads `Open`; skip it when
`try_acquire` fails (the limiter still refills); otherwise accept.  When
the fuel runs out, take the next round-robin key unconditionally and
perform a blocking acquire on its limiter. -/
def selectScan (now : Rat) : Nat → PoolState → Option String × PoolState × List SelEvent
  | 0, s =>
      let (k, s1) := poolNextKey s
      let (rl2, _waited) := rlAcquire now (s1.limiters k)
      (some k, { s1 with limiters := updateMap s1.limiters k rl2 },
        [SelEvent.fallbackBlocking k])
  | n + 1, s =>
      let (k, s1) := poolNextKey s
      if cbReadState now (s1.breakers k) = CircuitState.opened then
        let (r, s2, tr) := selectScan now n s1
        (r, s2, SelEvent.skippedOpen k :: tr)
      else
        match rlTryAcquire now (s1.limiters k) with
        | (true, rl2) =>
            (some k, { s1 with limiters := updateMap s1.limiters k rl2 },
              [SelEvent.accepted k])
        | (false, rl2) =>
            let s2 := { s1 with limiters := updateMap s1.limiters k rl2 }
            let (r, s3, tr) := selectScan now n s2
            (r, s3, SelEvent.skippedRate k :: tr)

/-- Embeds `OpenRouterPoolClient._select_key` (lines 145-166): scan up to
`len(api_keys)` candidates, then fall back to a blocking acquire. -/
def selectKey (now : Rat) (s : PoolState) : Option String × PoolState × List SelEvent :=
  selectScan now s.keys.length s

/-! ## OpenRouter typed errors (`app/clients/exceptions.py`) and the pool
execution loop (`OpenRouterPoolClient._execute_with_pool`) -/

/-- The typed errors of the OpenRouter client.  `retryAfter` is in whole
seconds (§3 TypedError); `base` is the bare `OpenRouterClientError`, which
the handlers of the pool do not catch. -/
inductive ORErr where
  | rateLimit (retryAfter : Option Nat)
  | service (status : Nat)
  | server (status : Nat)
  | timedOut
  | auth
  | validation
  | base (msg : String)
  deriving Repr, DecidableEq

/-- The four transient errors the pool keeps retrying (§3: "only the first
four are retryable"). -/
def orRetryable : ORErr → Bool
  | ORErr.rateLimit _ => true
  | ORErr.service _ => true
  | ORErr.server _ => true
  | ORErr.timedOut => true
  | _ => false

/-- Failure handling of one `_execute_with_pool` iteration (lines 206-245):
returns the updated pool state, `some err` when the error terminates the
call immediately (auth/validation re-raise; the uncaught base error
propagates), and the seconds slept before the next iteration.  A
`RateLimited` failure records three breaker failures at once, a pool
failure with status 429, and sleeps `min(retry_after, 30)` when
`retry_after` is truthy. -/
def handlePoolFailure (now : Rat) (e : ORErr) (k : String) (s : PoolState) :
    PoolState × Option ORErr × Nat :=
  match e with
  | ORErr.rateLimit r =>
      let b := cbRecordFailure now (cbRecordFailure now (cbRecordFailure now (s.breakers k)))
      let s2 := poolRecordFailure { s with breakers := updateMap s.breakers k b } k (some 429)
      (s2, none, match r with | some t => if t ≠ 0 then min t 30 else 0 | none => 0)
  | ORErr.service st =>
      ((poolRecordFailure s k (some (if st = 0 then 503 else st))), none, 30)
  | ORErr.server st =>
      let s2 := { s with breakers := updateMap s.breakers k (cbRecordFailure now (s.breakers k)) }
      (poolRecordFailure s2 k (some st), none, 0)
  | ORErr.timedOut =>
      let s2 := { s with breakers := updateMap s.breakers k (cbRecordFailure now (s.breakers k)) }
      (poolRecordFailure s2 k none, none, 0)
  | ORErr.auth => (poolRecordFailure s k (some 401), some ORErr.auth, 0)
  | ORErr.validation => (poolRecordFailure s k (some 422), some ORErr.validation, 0)
  | ORErr.base m => (s, some (ORErr.base m), 0)

/-- Result of a pool call: outcome, final pool state, the dispatched
(key, outcome) pairs in order, loop iterations, iterations that dispatched
nothing (the `key is None` branch), total seconds slept, and the final
clock. -/
structure PoolRun where
  result : Except ORErr String
  state : PoolState
  dispatches : List (String × Except ORErr String)
  attempts : Nat
  idleLoops : Nat
  totalSleep : Nat
  now : Rat

/-- The `while attempts < max_attempts` loop of `_execute_with_pool`
(lines 180-250) with `fuel` iterations left.  `stub` maps a key to the
outcome its provider client returns.  Sleeping advances the clock. -/
def execPoolAux (stub : String → Except ORErr String) :
    Nat → PoolState → Option ORErr → List (String × Except ORErr String) →
    Nat → Nat → Nat → Rat → PoolRun
  | 0, s, lastError, ds, att, idle, slp, now =>
      { result := Except.error (lastError.getD (ORErr.base "All keys exhausted")),
        state := s, dispatches := ds, attempts := att, idleLoops := idle,
        totalSleep := slp, now := now }
  | fuel + 1, s, lastError, ds, att, idle, slp, now =>
      match selectKey now s with
      | (none, s1, _) =>
          execPoolAux stub fuel s1 lastError ds (att + 1) (idle + 1) (slp + 1) (now + 1)
      | (some k, s1, _) =>
          match stub k with
          | Except.ok p =>
              let s2 := { s1 with breakers := updateMap s1.breakers k (cbRecordSuccess (s1.breakers k)) }
              { result := Except.ok p, state := poolRecordSuccess s2 k,
                dispatches := ds ++ [(k, Except.ok p)], attempts := att + 1,
                idleLoops := idle, totalSleep := slp, now := now }
          | Except.error e =>
              match handlePoolFailure now e k s1 with
              | (s2, some err, d) =>
                  { result := Except.error err, state := s2,
                    dispatches := ds ++ [(k, Except.error e)], attempts := att + 1,
                    idleLoops := idle, totalSleep := slp + d, now := now + d }
              | (s2, none, d) =>
                  execPoolAux stub fuel s2 (some e) (ds ++ [(k, Except.error e)])
                    (att + 1) idle (slp + d) (now + d)

/-- Embeds `OpenRouterPoolClient._execute_with_pool`: at most
`len(api_keys) * max_retries` iterations; when they are exhausted the last
stored error is raised, or a bare "All keys exhausted" client error when
none was stored. -/
def executeWithPool (stub : String → Except ORErr String) (s : PoolState)
    (maxRetries : Nat) (now : Rat) : PoolRun :=
  execPoolAux stub (s.keys.length * maxRetries) s none [] 0 0 0 now

/-- Embeds `OpenRouterPoolClient.__init__` (lines 79-129): an empty key list is
rejected with `ValueError("At least one API key is required")` before any
per-key state exists; otherwise every key gets a full token bucket with
`burst = max(1, int(qps * burst_multiplier))` (per-key state modelled from
the spec §4.1-§4.3, see above) and a closed breaker. -/
def mkOpenRouterPool (apiKeys : List String) (qps burstMultiplier : Rat)
    (cbThreshold : Nat) (cbRecovery : Rat) : Except String PoolState :=
  if apiKeys.isEmpty then Except.error "At least one API key is required"
  else
    let burst : Rat := ((max 1 (qps * burstMultiplier).floor : Int) : Rat)
    Except.ok
      { keys := apiKeys, cursor := 0,
        breakers := fun _ => newBreaker cbThreshold cbRecovery,
        limiters := fun _ => { qps := qps, burst := burst, tokens := burst, lastRefill := 0 },
        totalSuccesses := fun _ => 0, totalFailures := fun _ => 0,
        failStatuses := fun _ => [] }

/-! ## Split-tunnel route programming (`app/core/vpn_bootstrap.py`) -/

/-- The whitelist test of `_resolve_domains` (lines 404-407): Python
substring containment of either well-known Google API domain. -/
def isGoogleDomain (d : String) : Bool :=
  strContains d "generativelanguage.googleapis.com" || strContains d "googleapis.com"

/-- The hard-coded Google AS15169 CIDR blocks returned by
`_resolve_domains` when a whitelisted domain is present. -/
def googleCidrs : List String :=
  ["142.250.0.0/15", "172.217.0.0/16", "216.58.192.0/19"]

/-- Filter of `_resolve_domains`: it keeps an address only when it contains no colon
(IPv6 results are skipped). -/
def isIpv4 (ip : String) : Bool := !(ip.contains ':')

/-- Append an address unless it is already present (the `seen` set of
`_resolve_domains`). -/
def insertNew (a : List String) (ip : String) : List String :=
  if ip ∈ a then a else a ++ [ip]

/-- Merge new addresses into the accumulator, keeping first occurrences
(the `seen` set of `_resolve_domains`). -/
def mergeNew (acc ips : List String) : List String :=
  ips.foldl insertNew acc

/-- The three-attempt resolution of one domain in `_resolve_domains`
(lines 426-449).  `dns d i` is the outcome of the `i`-th `getaddrinfo`
call for `d` (`none` = `gaierror`).  A `gaierror` on attempts 0 or 1 is
swallowed; a `gaierror` on attempt 2 (the last) raises, regardless of the
earlier attempts.  IPv4 results of all successful attempts are unioned. -/
def resolveOneDomain (dns : String → Nat → Option (List String)) (d : String) :
    Except String (List String) :=
  match dns d 2 with
  | none => Except.error ("Failed to resolve domain " ++ d)
  | some ips2 =>
      Except.ok (mergeNew [] (((dns d 0).getD [] ++ (dns d 1).getD [] ++ ips2).filter isIpv4))

/-- Embeds `_resolve_domains` (lines 394-455): when ANY configured domain contains
a whitelisted Google substring, the whole result is the three hard-coded
CIDR blocks and no resolution happens; otherwise each domain is resolved
three times, results are unioned and deduplicated across domains, and an
empty final list is an error. -/
def resolveDomains (dns : String → Nat → Option (List String)) (domains : List String) :
    Except String (List String) :=
  if domains.any isGoogleDomain then Except.ok googleCidrs
  else do
    let addrs ← domains.foldlM (fun acc d => do
      let ips ← resolveOneDomain dns d
      pure (mergeNew acc ips)) []
    if addrs.isEmpty then
      Except.error "DNS lookup returned no IPv4 addresses."
    else Except.ok addrs

/-- An executed `ip` command, as its argument vector. -/
abbrev Cmd := List String

/-- The captured pre-bootstrap default route (`DefaultRoute` dataclass). -/
structure DefaultRoute where
  gateway : String
  dev : String
  metric : Option String
  deriving Repr, DecidableEq

/-- Embeds `_parse_csv`: split on commas, strip, drop empties. -/
def parseCsv (raw : Option String) : List String :=
  match raw with
  | none => []
  | some r => ((r.splitOn ",").map String.trim).filter (fun s => !s.isEmpty)

/-- Command issued by `_remove_default_route_via_interface` (line 380). -/
def cmdDelDefault (iface : String) : Cmd :=
  ["ip", "route", "del", "default", "dev", iface]

/-- Command issued by `_restore_default_route` (lines 373-377). -/
def cmdRestoreDefault (r : DefaultRoute) : Cmd :=
  ["ip", "route", "replace", "default", "via", r.gateway, "dev", r.dev] ++
    (match r.metric with | some m => ["metric", m] | none => [])

/-- Command issued by `_ensure_route_via_gateway` (lines 384-386). -/
def cmdRouteViaGateway (target : String) (r : DefaultRoute) : Cmd :=
  ["ip", "route", "replace", target, "via", r.gateway, "dev", r.dev]

/-- Command issued by `_ensure_route_via_interface` (lines 389-391). -/
def cmdRouteViaInterface (target : String) (iface : String) : Cmd :=
  ["ip", "route", "replace", target, "dev", iface]

/-- Run a sequence of `_run_or_raise` commands against an oracle deciding
which succeed; a failure aborts with an error, success returns the
executed commands in order. -/
def runCmds (oracle : Cmd → Bool) (cmds : List Cmd) : Except String (List Cmd) :=
  cmds.foldlM
    (fun acc c =>
      if oracle c then Except.ok (acc ++ [c])
      else Except.error ("Command failed: " ++ String.intercalate " " c)) []

/-- The environment slice read by `configure_split_tunnel`. -/
structure VpnEnv where
  routeMode : Option String
  bypassCidrs : Option String
  routeDomains : Option String
  routeCidrs : Option String

/-- Route-target computation of `configure_split_tunnel` (lines 486-508):
in domains mode the configured domains are resolved (with IPs widened to
`/32` CIDRs, resolved CIDR blocks kept as they are); in cidr mode the
configured CIDR list is used as is; an empty configured list is an
error. -/
def splitTunnelTargets (routeMode : String) (env : VpnEnv)
    (dns : String → Nat → Option (List String)) : Except String (List String) :=
  if routeMode == "domains" then do
    let domains := parseCsv env.routeDomains
    if domains.isEmpty then
      Except.error "VPN_ROUTE_DOMAINS must be provided when VPN_ROUTE_MODE=domains."
    else do
      let resolved ← resolveDomains dns domains
      pure (resolved.map (fun item =>
        if item.contains '/' then item else item ++ "/32"))
  else
    let cidrs := parseCsv env.routeCidrs
    if cidrs.isEmpty then
      Except.error "VPN_ROUTE_CIDRS must be provided when VPN_ROUTE_MODE=cidr."
    else pure cidrs

/-- Embeds `configure_split_tunnel` (lines 458-523).  Returns the command trace of
a successful run; `run_ignore` of the default-route delete is executed
unconditionally, everything else goes through the oracle. -/
def configureSplitTunnel (iface : String) (env : VpnEnv)
    (defaultRoute : Option DefaultRoute) (dns : String → Nat → Option (List String))
    (oracle : Cmd → Bool) : Except String (List Cmd) :=
  let routeMode := (env.routeMode.getD "domains").trim.toLower
  if !(routeMode == "all" || routeMode == "domains" || routeMode == "cidr") then
    Except.error "VPN_ROUTE_MODE must be one of: all, domains, cidr."
  else
    let bypass := parseCsv env.bypassCidrs
    if routeMode == "all" then
      if bypass.isEmpty then Except.ok []
      else
        match defaultRoute with
        | none => Except.error "Cannot add bypass CIDRs without baseline default route."
        | some r => runCmds oracle (bypass.map (fun c => cmdRouteViaGateway c r))
    else
      match defaultRoute with
      | none => Except.error "Split-tunnel mode requires detecting the original default route."
      | some r => do
          let targets ← splitTunnelTargets routeMode env dns
          let tail ← runCmds oracle
            ([cmdRestoreDefault r] ++
              targets.map (fun t => cmdRouteViaInterface t iface) ++
              bypass.map (fun c => cmdRouteViaGateway c r))
          pure (cmdDelDefault iface :: tail)

/-- The default-route component of the host routing table: `some (g, d)`
means "default via g dev d". -/
structure RouteTable where
  dflt : Option (String × String)
  deriving Repr, DecidableEq

/-- Kernel semantics of the `ip route` commands the route programmer
issues, restricted to their effect on the default route: `del default dev
i` removes a default route going through `i`; `replace default via g dev
d` installs `(g, d)`; `replace default dev d` installs a gateway-less
default through `d` (recorded with an empty gateway); any other command
leaves the default alone. -/
def applyCmd (t : RouteTable) (c : Cmd) : RouteTable :=
  match c with
  | ["ip", "route", "del", "default", "dev", i] =>
      match t.dflt with
      | some (_, d) => if d = i then { dflt := none } else t
      | none => t
  | "ip" :: "route" :: "replace" :: "default" :: "via" :: g :: "dev" :: d :: _ =>
      { dflt := some (g, d) }
  | "ip" :: "route" :: "replace" :: "default" :: "dev" :: d :: _ =>
      { dflt := some ("", d) }
  | _ => t

/-! ## VPN health report (`app/services/vpn_health.py`) -/

/-- Tunnel backends selectable via `VPN_TYPE`. -/
inductive VpnType where
  | wireguard
  | awg
  | openvpn
  | hysteria2
  deriving Repr, DecidableEq

/-- Probe outcomes of `GeminiProbeStatus`. -/
inductive ProbeOutcome where
  | ok
  | fail
  | skipped
  deriving Repr, DecidableEq

/-- Overall statuses of `VpnHealthStatus`. -/
inductive HealthStatus where
  | healthy
  | degraded
  | disabled
  deriving Repr, DecidableEq

/-- Embeds `perform_gemini_probe` (lines 353-376): a request error is `Fail`; an
HTTP response is `Ok` exactly when its status code is `< 500`.  Returns
the outcome and the reported `http_status`. -/
def classifyProbe (resp : Except String Nat) : ProbeOutcome × Option Nat :=
  match resp with
  | Except.error _ => (ProbeOutcome.fail, none)
  | Except.ok code =>
      (if code < 500 then ProbeOutcome.ok else ProbeOutcome.fail, some code)

/-- The probe as the health gatherer runs it: skipped when external
network access is disabled, otherwise classified by status code. -/
def probeOutcomeOf (allowExternal : Bool) (resp : Except String Nat) : ProbeOutcome :=
  if !allowExternal then ProbeOutcome.skipped else (classifyProbe resp).1

/-- The Hysteria2 diagnostics record (schema `Hysteria2Status`). -/
structure Hysteria2Status where
  isRunning : Bool
  socks5Accessible : Bool
  httpAccessible : Bool
  error : Option String
  deriving Repr, DecidableEq

/-- Embeds `collect_hysteria2_status` (lines 302-350): when the process is not
running the ports are not even checked; otherwise port accessibility is
taken from the TCP connects and an error message is set when a port is
closed. -/
def collectHysteria2Status (socksPort httpPort : Nat) (running socksUp httpUp : Bool) :
    Hysteria2Status :=
  if !running then
    { isRunning := false, socks5Accessible := false, httpAccessible := false,
      error := some "Hysteria process not running" }
  else
    { isRunning := true, socks5Accessible := socksUp, httpAccessible := httpUp,
      error :=
        if !socksUp && !httpUp then
          some ("Neither SOCKS5 port " ++ toString socksPort ++ " nor HTTP port " ++
            toString httpPort ++ " are accessible")
        else if !socksUp then some ("SOCKS5 port " ++ toString socksPort ++ " not accessible")
        else if !httpUp then some ("HTTP port " ++ toString httpPort ++ " not accessible")
        else none }

/-- Status determination of the Hysteria2 branch of `gather_vpn_health`
(lines 468-491): degraded when the status carries an error AND (the
process is down OR both ports are closed); then degraded on probe
failure. -/
def hysteriaOverall (hy : Hysteria2Status) (probe : ProbeOutcome) : HealthStatus :=
  let s :=
    match hy.error with
    | some _ =>
        if !hy.isRunning then HealthStatus.degraded
        else if !hy.socks5Accessible && !hy.httpAccessible then HealthStatus.degraded
        else HealthStatus.healthy
    | none => HealthStatus.healthy
  if probe = ProbeOutcome.fail then HealthStatus.degraded else s

/-- Status determination of the WireGuard/AWG branch of
`gather_vpn_health` (lines 515-544). -/
def wireguardOverall (ifaceErr : Option String) (ifaceUp : Bool)
    (wgErr : Option String) (probe : ProbeOutcome) : HealthStatus :=
  let s :=
    match ifaceErr with
    | some _ => HealthStatus.degraded
    | none => if !ifaceUp then HealthStatus.degraded else HealthStatus.healthy
  let s2 :=
    match wgErr with
    | some _ => HealthStatus.degraded
    | none => s
  if probe = ProbeOutcome.fail then HealthStatus.degraded else s2

/-- The overall status of `gather_vpn_health` (lines 379-544): `Disabled`
when the VPN is off, otherwise the per-backend determination. -/
def gatherVpnHealthStatus (enabled : Bool) (vt : VpnType) (hy : Hysteria2Status)
    (ifaceErr : Option String) (ifaceUp : Bool) (wgErr : Option String)
    (probe : ProbeOutcome) : HealthStatus :=
  if !enabled then HealthStatus.disabled
  else if vt = VpnType.hysteria2 then hysteriaOverall hy probe
  else wireguardOverall ifaceErr ifaceUp wgErr probe

/-! ## Derived notions and concrete scenarios used by the theorems -/

/-- Key examined by a selection event. -/
def SelEvent.keyOf : SelEvent → String
  | SelEvent.skippedOpen k => k
  | SelEvent.skippedRate k => k
  | SelEvent.accepted k => k
  | SelEvent.fallbackBlocking k => k

/-- Whether a selection event skipped its key. -/
def SelEvent.isSkip : SelEvent → Bool
  | SelEvent.skippedOpen _ => true
  | SelEvent.skippedRate _ => true
  | _ => false

/-- Round-robin candidate at offset `i` from cursor `c` in key list `ks`. -/
def rrKey (ks : List String) (c i : Nat) : String :=
  ks.getD ((c + i) % ks.length) ""

/-- The route-target union described by the specification for the
non-whitelisted case: IPv4 results of all three attempts of all domains,
concatenated in order and deduplicated keeping first occurrences. -/
def unionSpec (dns : String → Nat → Option (List String)) (domains : List String) :
    List String :=
  mergeNew []
    (domains.flatMap (fun d =>
      (List.range 3).flatMap (fun i => ((dns d i).getD []).filter isIpv4)))

/-- Attempt schedule with three timeouts followed by success. -/
def respTimeouts (n : Nat) : Except GemErr String :=
  if n < 3 then Except.error GemErr.timedOut else Except.ok "ok"

/-- Attempt schedule whose first attempt is a 429 carrying
`Retry-After: 0`, then success. -/
def respRlZero (n : Nat) : Except GemErr String :=
  if n = 0 then Except.error (GemErr.rateLimit (some 0)) else Except.ok "ok"

/-- A three-key round-robin pool with full buckets (`qps = 10`,
`burst = 10`) and default breakers (threshold 5, recovery 60 s). -/
def scenarioPool : PoolState :=
  { keys := ["A", "B", "C"], cursor := 0,
    breakers := fun _ => newBreaker 5 60,
    limiters := fun _ => { qps := 10, burst := 10, tokens := 10, lastRefill := 0 },
    totalSuccesses := fun _ => 0, totalFailures := fun _ => 0,
    failStatuses := fun _ => [] }

/-- A single-key pool produced by the constructor in the witness below. -/
def onePool : PoolState :=
  { keys := ["k1"], cursor := 0,
    breakers := fun _ => newBreaker 5 60,
    limiters := fun _ =>
      { qps := 10, burst := ((max 1 ((10 : Rat) * 1).floor : Int) : Rat),
        tokens := ((max 1 ((10 : Rat) * 1).floor : Int) : Rat), lastRefill := 0 },
    totalSuccesses := fun _ => 0, totalFailures := fun _ => 0,
    failStatuses := fun _ => [] }

/-- Stub of the end-to-end scenario: key A answers 429 with a
key-specific body (no Retry-After header), every other key succeeds. -/
def stubC4 (k : String) : Except ORErr String :=
  if k = "A" then Except.error (ORErr.rateLimit none) else Except.ok "ok"

/-- Stub where every key times out on every call. -/
def stubTimeout (_ : String) : Except ORErr String :=
  Except.error ORErr.timedOut

/-- DNS oracle answering `1.2.3.4` to every query. -/
def dnsSimple (_ : String) (_ : Nat) : Option (List String) :=
  some ["1.2.3.4"]

/-- DNS oracle whose first two attempts succeed and whose third attempt
fails. -/
def dnsFlaky (_ : String) (i : Nat) : Option (List String) :=
  if i = 2 then none else some ["1.2.3.4"]

/-- Environment of end-to-end scenario 5: split tunnel by domains with one
bypass CIDR. -/
def envScenario5 : VpnEnv :=
  { routeMode := some "domains", bypassCidrs := some "10.0.0.0/8",
    routeDomains := some "generativelanguage.googleapis.com", routeCidrs := none }

/-- The pre-bootstrap default route of scenario 5. -/
def origRoute : DefaultRoute :=
  { gateway := "192.168.1.1", dev := "eth0", metric := none }

/-- Attempt schedule whose every attempt fails with an auth error. -/
def respAuth (_ : Nat) : Except GemErr String :=
  Except.error GemErr.auth

/-- IPv4 addresses contributed by the three resolution attempts of one
domain, in attempt order. -/
def domainIpv4s (dns : String → Nat → Option (List String)) (d : String) : List String :=
  (((dns d 0).getD [] ++ (dns d 1).getD []) ++ (dns d 2).getD []).filter isIpv4

/-- Decidable equality for `Except`, used to evaluate concrete runs. -/
instance {e a : Type} [DecidableEq e] [DecidableEq a] : DecidableEq (Except e a) :=
  fun x y =>
    match x, y with
    | Except.error u, Except.error v =>
        if h : u = v then isTrue (by rw [h])
        else isFalse (by intro hh; cases hh; exact h rfl)
    | Except.ok u, Except.ok v =>
        if h : u = v then isTrue (by rw [h])
        else isFalse (by intro hh; cases hh; exact h rfl)
    | Except.error _, Except.ok _ => isFalse (fun hh => Except.noConfusion hh)
    | Except.ok _, Except.error _ => isFalse (fun hh => Except.noConfusion hh)

/-! ## Theorems -/

/-- Unfolding lemma: the retry loop with no attempts left raises the last
stored exception. -/
theorem geminiRetryAux_zero (resp : Nat → Except GemErr String)
    (attempt : Nat) (lastExc : Option GemErr) (acc : List Int) (used : Nat) :
    geminiRetryAux resp 0 attempt lastExc acc used =
      { result := .error (lastExc.getD (GemErr.base "Retry loop ended unexpectedly")),
        sleeps := acc, attemptsUsed := used } := rfl

/-- Unfolding lemma for one iteration of the retry loop. -/
theorem geminiRetryAux_succ (resp : Nat → Except GemErr String)
    (rem attempt : Nat) (lastExc : Option GemErr) (acc : List Int) (used : Nat) :
    geminiRetryAux resp (rem + 1) attempt lastExc acc used =
      match resp attempt with
      | .ok p => { result := .ok p, sleeps := acc, attemptsUsed := used + 1 }
      | .error e =>
        match geminiRetryDelay e attempt with
        | none => { result := .error e, sleeps := acc, attemptsUsed := used + 1 }
        | some d =>
          if rem = 0 then
            { result := .error e, sleeps := acc, attemptsUsed := used + 1 }
          else
            geminiRetryAux resp rem (attempt + 1) (some e) (acc ++ [d]) (used + 1) := rfl

/-- Attempt and sleep accounting of the retry loop: with positive fuel the
loop dispatches at least one and at most `fuel` further attempts, and
sleeps exactly once per dispatched attempt except the final one. -/
theorem geminiRetryAux_counts (resp : Nat → Except GemErr String) :
    ∀ (rem : Nat), ∀ (attempt : Nat) (lastExc : Option GemErr) (acc : List Int) (used : Nat),
      used + 1 ≤ (geminiRetryAux resp (rem + 1) attempt lastExc acc used).attemptsUsed ∧
      (geminiRetryAux resp (rem + 1) attempt lastExc acc used).attemptsUsed ≤ used + rem + 1 ∧
      (geminiRetryAux resp (rem + 1) attempt lastExc acc used).sleeps.length + used + 1 =
        acc.length + (geminiRetryAux resp (rem + 1) attempt lastExc acc used).attemptsUsed := by
  intro rem
  induction rem with
  | zero =>
      intro attempt lastExc acc used
      rw [geminiRetryAux_succ]
      cases hr : resp attempt with
      | ok p => simp; omega
      | error e =>
          cases hd : geminiRetryDelay e attempt with
          | none => simp only [hd]; simp; omega
          | some d => simp only [hd]; simp; omega
  | succ n ih =>
      intro attempt lastExc acc used
      rw [geminiRetryAux_succ]
      cases hr : resp attempt with
      | ok p => simp; omega
      | error e =>
          cases hd : geminiRetryDelay e attempt with
          | none => simp only [hd]; simp; omega
          | some d =>
              have hn : ¬ (n + 1 = 0) := by omega
              simp only [hd, hn, if_false]
              have h := ih (attempt + 1) (some e) (acc ++ [d]) (used + 1)
              simp only [List.length_append, List.length_cons, List.length_nil] at h ⊢
              omega

/-- C1: for a 429 HTTP response the transport raises `RateLimited` exactly
when the response body contains one of the substrings "quota", "api key",
"rate limit" or "per key" case-insensitively, and `ServiceOverload` with
status 429 otherwise; the `retryAfter` field is populated exactly when
the Retry-After header value parses as an integer.  The classification is
a pure function (`mapHttpStatus`) of the status, body, and header. -/
theorem c1_transport_429_classification (body : String) (hdr : Option String) :
    mapHttpStatus 429 body hdr =
      (if sniff429 body then GemErr.rateLimit (extractRetryAfter hdr)
       else GemErr.service 429) ∧
    ((extractRetryAfter hdr).isSome = true ↔
      ∃ s n, hdr = some s ∧ parsePyInt s = some n) ∧
    transportRequest (HttpOutcome.httpStatus 429 body hdr) =
      Except.error (mapHttpStatus 429 body hdr) := by
  refine ⟨by simp [mapHttpStatus], ?_, rfl⟩
  cases hdr with
  | none => simp [extractRetryAfter]
  | some s => simp [extractRetryAfter, Option.isSome_iff_exists]

/-- C2 counterexample: with `maxRetries = 3` and three consecutive
timeouts the loop makes only `max(1, 3) = 3` attempts, sleeps 1 s and 2 s,
and raises `Timeout` — there is no fourth attempt returning the success
the claim predicts.  Moreover on `RateLimited` with `retryAfter` present
but equal to 0 the loop sleeps `2^0 = 1` second, not the present
`retryAfter = 0`. -/
theorem c2_counterexample :
    (geminiRequestWithRetry 3 respTimeouts).result = Except.error GemErr.timedOut ∧
    (geminiRequestWithRetry 3 respTimeouts).sleeps = [1, 2] ∧
    (geminiRequestWithRetry 3 respTimeouts).attemptsUsed = 3 ∧
    (geminiRequestWithRetry 2 respRlZero).sleeps = [1] ∧
    ((1 : Int) ≠ 0) ∧
    (Except.error GemErr.timedOut ≠ (Except.ok "ok" : Except GemErr String)) := by
  refine ⟨rfl, rfl, rfl, rfl, by decide, ?_⟩
  intro h
  exact Except.noConfusion h

/-- C2 (amended): the single-key client makes at least one and at most
`max(1, maxRetries)` attempts per call and sleeps exactly once between
consecutive attempts.  Between attempts it sleeps `retryAfter` seconds on
`RateLimited` when `retryAfter` is present and nonzero and otherwise
`2^attempt` seconds; a fixed 30 s on `ServiceOverload`; `2^attempt`
seconds on `ServerError` or `Timeout`; and a non-retryable first outcome
(auth, validation, network) is raised immediately after one attempt with
no sleep.  With `maxRetries = 4` (not 3) three consecutive timeouts
followed by a success sleep 1 s, 2 s, 4 s, and the fourth attempt returns
the success; with `maxRetries = 3` the third timeout exhausts the attempts
and `Timeout` is raised. -/
theorem c2_amended_retry_loop :
    (∀ (m : Nat) (resp : Nat → Except GemErr String),
       1 ≤ (geminiRequestWithRetry m resp).attemptsUsed ∧
       (geminiRequestWithRetry m resp).attemptsUsed ≤ max 1 m ∧
       (geminiRequestWithRetry m resp).sleeps.length =
         (geminiRequestWithRetry m resp).attemptsUsed - 1) ∧
    (∀ (t : Int) (attempt : Nat), t ≠ 0 →
       geminiRetryDelay (GemErr.rateLimit (some t)) attempt = some t) ∧
    (∀ attempt : Nat,
       geminiRetryDelay (GemErr.rateLimit (some 0)) attempt = some ((2 : Int) ^ attempt) ∧
       geminiRetryDelay (GemErr.rateLimit none) attempt = some ((2 : Int) ^ attempt) ∧
       geminiRetryDelay GemErr.timedOut attempt = some ((2 : Int) ^ attempt)) ∧
    (∀ (st attempt : Nat),
       geminiRetryDelay (GemErr.service st) attempt = some 30 ∧
       geminiRetryDelay (GemErr.server st) attempt = some ((2 : Int) ^ attempt)) ∧
    (∀ (m : Nat) (resp : Nat → Except GemErr String) (e : GemErr),
       resp 0 = Except.error e → geminiRetryDelay e 0 = none →
       geminiRequestWithRetry m resp =
         { result := Except.error e, sleeps := [], attemptsUsed := 1 }) ∧
    (geminiRequestWithRetry 4 respTimeouts).result = Except.ok "ok" ∧
    (geminiRequestWithRetry 4 respTimeouts).sleeps = [1, 2, 4] ∧
    (geminiRequestWithRetry 4 respTimeouts).attemptsUsed = 4 := by
  refine ⟨?_, ?_, ?_, ?_, ?_, rfl, rfl, rfl⟩
  · intro m resp
    have hm : max 1 m = (max 1 m - 1) + 1 := by omega
    have h := geminiRetryAux_counts resp (max 1 m - 1) 0 none [] 0
    unfold geminiRequestWithRetry
    rw [hm]
    constructor
    · omega
    constructor
    · omega
    · simp only [List.length_nil] at h
      omega
  · intro t attempt ht
    simp [geminiRetryDelay, ht]
  · intro attempt
    refine ⟨by simp [geminiRetryDelay], rfl, rfl⟩
  · intro st attempt
    exact ⟨rfl, rfl⟩
  · intro m resp e hresp hdelay
    have hm : max 1 m = (max 1 m - 1) + 1 := by omega
    unfold geminiRequestWithRetry
    rw [hm, geminiRetryAux_succ, hresp]
    simp only [hdelay]

/-- Witness for the amended C2 theorem: a concrete immediate-raise run and
a concrete server-hinted delay. -/
theorem c2_amended_witness :
    geminiRequestWithRetry 3 respAuth =
      { result := Except.error GemErr.auth, sleeps := [], attemptsUsed := 1 } ∧
    geminiRetryDelay (GemErr.rateLimit (some 7)) 0 = some 7 :=
  ⟨c2_amended_retry_loop.2.2.2.2.1 3 respAuth GemErr.auth rfl rfl,
   c2_amended_retry_loop.2.1 7 0 (by decide)⟩

/-- Shifting the round-robin window: the candidates from cursor `c` are
the candidate at `c` followed by the candidates from cursor `c + 1`. -/
theorem rrKey_shift (ks : List String) (c m : Nat) :
    (List.range (m + 1)).map (rrKey ks c) =
      rrKey ks c 0 :: (List.range m).map (rrKey ks (c + 1)) := by
  rw [List.range_succ_eq_map, List.map_cons, List.map_map]
  refine congrArg (rrKey ks c 0 :: ·) (List.map_congr_left ?_)
  intro i _
  simp only [Function.comp_apply, rrKey]
  rw [show c + i.succ = c + 1 + i from by omega]

/-- Unfolding lemma: the fallback step of `_select_key` takes the next
round-robin key and performs a blocking acquire on its limiter. -/
theorem selectScan_zero (now : Rat) (s : PoolState) :
    selectScan now 0 s =
      (let k := s.keys.getD (s.cursor % s.keys.length) ""
       let rl2 := (rlAcquire now (s.limiters k)).1
       (some k,
        { s with cursor := s.cursor + 1, limiters := updateMap s.limiters k rl2 },
        [SelEvent.fallbackBlocking k])) := rfl

/-- Unfolding lemma for one scanning step of `_select_key`. -/
theorem selectScan_succ (now : Rat) (n : Nat) (s : PoolState) :
    selectScan now (n + 1) s =
      (let k := s.keys.getD (s.cursor % s.keys.length) ""
       let s1 : PoolState := { s with cursor := s.cursor + 1 }
       if cbReadState now (s.breakers k) = CircuitState.opened then
         let r := selectScan now n s1
         (r.1, r.2.1, SelEvent.skippedOpen k :: r.2.2)
       else
         match rlTryAcquire now (s.limiters k) with
         | (true, rl2) =>
             (some k, { s1 with limiters := updateMap s.limiters k rl2 },
               [SelEvent.accepted k])
         | (false, rl2) =>
             let r := selectScan now n { s1 with limiters := updateMap s.limiters k rl2 }
             (r.1, r.2.1, SelEvent.skippedRate k :: r.2.2)) := rfl

/-- Structure of every `_select_key` run: the event trace is a (possibly
empty) block of skip events followed by a single terminal event; a key is
always returned; the scan accepts at most `fuel` candidates before the
blocking fallback, which happens exactly when all `fuel` scanned
candidates were skipped; and the examined keys are precisely the
consecutive round-robin candidates starting at the cursor. -/
theorem selectScan_spec (now : Rat) :
    ∀ (n : Nat) (s : PoolState),
      ∃ skips k final,
        (selectScan now n s).2.2 = skips ++ [final] ∧
        (selectScan now n s).1 = some k ∧
        (∀ e ∈ skips, SelEvent.isSkip e = true) ∧
        (final = SelEvent.accepted k ∨
          (final = SelEvent.fallbackBlocking k ∧ skips.length = n)) ∧
        skips.length ≤ n ∧
        (skips ++ [final]).map SelEvent.keyOf =
          (List.range (skips.length + 1)).map (rrKey s.keys s.cursor) := by
  intro n
  induction n with
  | zero =>
      intro s
      rw [selectScan_zero]
      refine ⟨[], s.keys.getD (s.cursor % s.keys.length) "",
        SelEvent.fallbackBlocking (s.keys.getD (s.cursor % s.keys.length) ""),
        ?_, ?_, ?_, ?_, ?_, ?_⟩ <;>
        simp [rrKey, SelEvent.keyOf, List.range_succ, List.range_zero]
  | succ n ih =>
      intro s
      by_cases hcb :
          cbReadState now (s.breakers (s.keys.getD (s.cursor % s.keys.length) "")) =
            CircuitState.opened
      · obtain ⟨skips, k, final, htr, hr, hskips, hfin, hlen, hmap⟩ :=
          ih { s with cursor := s.cursor + 1 }
        simp only [selectScan_succ]
        rw [if_pos hcb]
        refine ⟨SelEvent.skippedOpen (s.keys.getD (s.cursor % s.keys.length) "") :: skips,
          k, final, ?_, ?_, ?_, ?_, ?_, ?_⟩
        · simp [htr]
        · simp [hr]
        · intro e he
          rcases List.mem_cons.mp he with h | h
          · subst h; rfl
          · exact hskips e h
        · rcases hfin with h | ⟨h1, h2⟩
          · exact Or.inl h
          · exact Or.inr ⟨h1, by simp [h2]⟩
        · simp; omega
        · simp only [List.cons_append, List.map_cons, List.length_cons]
          rw [rrKey_shift]
          refine congrArg₂ _ ?_ ?_
          · simp [SelEvent.keyOf, rrKey]
          · simpa using hmap
      · rcases hacq : rlTryAcquire now
            (s.limiters (s.keys.getD (s.cursor % s.keys.length) "")) with ⟨b, rl2⟩
        cases b with
        | true =>
            simp only [selectScan_succ]
            rw [if_neg hcb, hacq]
            refine ⟨[], s.keys.getD (s.cursor % s.keys.length) "",
              SelEvent.accepted (s.keys.getD (s.cursor % s.keys.length) ""),
              ?_, ?_, ?_, ?_, ?_, ?_⟩ <;>
              simp [rrKey, SelEvent.keyOf, List.range_succ, List.range_zero]
        | false =>
            obtain ⟨skips, k, final, htr, hr, hskips, hfin, hlen, hmap⟩ :=
              ih { s with cursor := s.cursor + 1, limiters := updateMap s.limiters (s.keys.getD (s.cursor % s.keys.length) "") rl2 }
            simp only [selectScan_succ]
            rw [if_neg hcb, hacq]
            simp only [List.getD_eq_getElem?_getD] at htr hr
            refine ⟨SelEvent.skippedRate (s.keys.getD (s.cursor % s.keys.length) "") :: skips,
              k, final, ?_, ?_, ?_, ?_, ?_, ?_⟩
            · simp [htr]
            · simp [hr]
            · intro e he
              rcases List.mem_cons.mp he with h | h
              · subst h; rfl
              · exact hskips e h
            · rcases hfin with h | ⟨h1, h2⟩
              · exact Or.inl h
              · exact Or.inr ⟨h1, by simp [h2]⟩
            · simp; omega
            · simp only [List.cons_append, List.map_cons, List.length_cons]
              rw [rrKey_shift]
              refine congrArg₂ _ ?_ ?_
              · simp [SelEvent.keyOf, rrKey]
              · simpa using hmap

/-- C3: key selection iterates over at most `N = len(api_keys)` candidates
under the selection lock, taking consecutive round-robin keys; every
skipped candidate is skipped for a recorded reason (breaker reading Open,
or a failed `TryAcquire`, as the event constructors state); an accepted
candidate ends the scan at once; and when all `N` scanned candidates were
skipped, the next round-robin key (the candidate at offset `N`) is
returned after a blocking `Acquire` on its limiter, regardless of its
breaker state. -/
theorem c3_select_key_scan (now : Rat) (s : PoolState) :
    ∃ skips k final,
      (selectKey now s).2.2 = skips ++ [final] ∧
      (selectKey now s).1 = some k ∧
      (∀ e ∈ skips, SelEvent.isSkip e = true) ∧
      (final = SelEvent.accepted k ∨
        (final = SelEvent.fallbackBlocking k ∧ skips.length = s.keys.length)) ∧
      skips.length ≤ s.keys.length ∧
      (skips ++ [final]).map SelEvent.keyOf =
        (List.range (skips.length + 1)).map (rrKey s.keys s.cursor) :=
  selectScan_spec now s.keys.length s

/-- Key selection always yields a key (derived from the trace shape of
`selectScan_spec`). -/
theorem selectKey_isSome (now : Rat) (s : PoolState) :
    ∃ k, (selectKey now s).1 = some k := by
  obtain ⟨_, k, _, _, hr, _⟩ := selectScan_spec now s.keys.length s
  exact ⟨k, hr⟩

/-- Unfolding lemma: the pool loop with no iterations left raises the last
stored error, or the bare client error when none was stored. -/
theorem execPoolAux_zero (stub : String → Except ORErr String)
    (s : PoolState) (lastError : Option ORErr)
    (ds : List (String × Except ORErr String)) (att idle slp : Nat) (now : Rat) :
    execPoolAux stub 0 s lastError ds att idle slp now =
      { result := Except.error (lastError.getD (ORErr.base "All keys exhausted")),
        state := s, dispatches := ds, attempts := att, idleLoops := idle,
        totalSleep := slp, now := now } := rfl

/-- Unfolding lemma for one iteration of the pool loop. -/
theorem execPoolAux_succ (stub : String → Except ORErr String) (fuel : Nat)
    (s : PoolState) (lastError : Option ORErr)
    (ds : List (String × Except ORErr String)) (att idle slp : Nat) (now : Rat) :
    execPoolAux stub (fuel + 1) s lastError ds att idle slp now =
      match selectKey now s with
      | (none, s1, _) =>
          execPoolAux stub fuel s1 lastError ds (att + 1) (idle + 1) (slp + 1) (now + 1)
      | (some k, s1, _) =>
          match stub k with
          | Except.ok p =>
              let s2 := { s1 with breakers := updateMap s1.breakers k (cbRecordSuccess (s1.breakers k)) }
              { result := Except.ok p, state := poolRecordSuccess s2 k,
                dispatches := ds ++ [(k, Except.ok p)], attempts := att + 1,
                idleLoops := idle, totalSleep := slp, now := now }
          | Except.error e =>
              match handlePoolFailure now e k s1 with
              | (s2, some err, d) =>
                  { result := Except.error err, state := s2,
                    dispatches := ds ++ [(k, Except.error e)], attempts := att + 1,
                    idleLoops := idle, totalSleep := slp + d, now := now + d }
              | (s2, none, d) =>
                  execPoolAux stub fuel s2 (some e) (ds ++ [(k, Except.error e)])
                    (att + 1) idle (slp + d) (now + d) := rfl

/-- Loop accounting: the idle branch is never taken (selection always
yields a key), every iteration dispatches exactly one request, and the
loop runs at most `fuel` iterations. -/
theorem execPoolAux_counts (stub : String → Except ORErr String) :
    ∀ (fuel : Nat) (s : PoolState) (lastError : Option ORErr)
      (ds : List (String × Except ORErr String)) (att idle slp : Nat) (now : Rat),
      (execPoolAux stub fuel s lastError ds att idle slp now).idleLoops = idle ∧
      (execPoolAux stub fuel s lastError ds att idle slp now).dispatches.length + att =
        ds.length + (execPoolAux stub fuel s lastError ds att idle slp now).attempts ∧
      (execPoolAux stub fuel s lastError ds att idle slp now).attempts ≤ att + fuel := by
  intro fuel
  induction fuel with
  | zero =>
      intro s lastError ds att idle slp now
      rw [execPoolAux_zero]
      exact ⟨rfl, rfl, Nat.le_refl _⟩
  | succ n ih =>
      intro s lastError ds att idle slp now
      rw [execPoolAux_succ]
      obtain ⟨k, hk⟩ := selectKey_isSome now s
      rcases hsel : selectKey now s with ⟨kOpt, s1, tr⟩
      rw [hsel] at hk
      simp only at hk
      subst hk
      cases hstub : stub k with
      | ok p => simp only [hstub]; simp; omega
      | error e =>
          rcases hH : handlePoolFailure now e k s1 with ⟨s2, terminal, d⟩
          cases terminal with
          | some err => simp only [hstub, hH]; simp; omega
          | none =>
              simp only [hstub, hH]
              have h := ih s2 (some e) (ds ++ [(k, Except.error e)]) (att + 1) idle (slp + d) (now + d)
              simp only [List.length_append, List.length_cons, List.length_nil] at h ⊢
              omega

/-- C10: for every reachable pool state, `_select_key` returns a key and
never `None` — even when every breaker is open or rate-limited the
fallback blocks on the next round-robin limiter and returns that key;
consequently the `key is None` sleep-one-second branch of
`_execute_with_pool` is unreachable and every loop iteration dispatches a
request. -/
theorem c10_selection_always_yields_key (now : Rat) (s : PoolState) :
    (∃ k, (selectKey now s).1 = some k) ∧
    ∀ (stub : String → Except ORErr String) (m : Nat),
      (executeWithPool stub s m now).idleLoops = 0 ∧
      (executeWithPool stub s m now).dispatches.length =
        (executeWithPool stub s m now).attempts := by
  refine ⟨selectKey_isSome now s, fun stub m => ?_⟩
  have h := execPoolAux_counts stub (s.keys.length * m) s none [] 0 0 0 now
  unfold executeWithPool
  refine ⟨h.1, ?_⟩
  have h2 := h.2.1
  simpa using h2

/-- Recording a failure always increments the consecutive-failure count by
exactly one, whatever the breaker state. -/
theorem cbRecordFailure_cf (now : Rat) (b : Breaker) :
    (cbRecordFailure now b).consecutiveFailures = b.consecutiveFailures + 1 := by
  unfold cbRecordFailure
  cases h : b.st <;> simp only [h] <;> first | rfl | (split <;> rfl)

/-- C4 counterexample: in the three-key scenario (A answers 429 with a
key-specific body, B succeeds) the call succeeds, but the breaker of A is
Closed after the call, not Open as claimed: the three recorded failures
stay below the default failure threshold of 5. -/
theorem c4_counterexample :
    (executeWithPool stubC4 scenarioPool 3 0).result = Except.ok "ok" ∧
    ((executeWithPool stubC4 scenarioPool 3 0).state.breakers "A").st = CircuitState.closed ∧
    ((executeWithPool stubC4 scenarioPool 3 0).state.breakers "A").consecutiveFailures = 3 ∧
    ((executeWithPool stubC4 scenarioPool 3 0).state.breakers "A").failureThreshold = 5 ∧
    CircuitState.closed ≠ CircuitState.opened := by
  refine ⟨by with_unfolding_all rfl, by with_unfolding_all rfl, by with_unfolding_all rfl,
    by with_unfolding_all rfl, by decide⟩

/-- C4 (amended): when an attempt on key `k` fails with `RateLimited`, the
pool records exactly three circuit-breaker failures on `k` at once,
records a pool failure for `k` with status 429, sleeps `min(retryAfter,
30)` seconds (no sleep when `retryAfter` is absent; sleeping 0 s when it
is 0), and continues with a further attempt.  In the three-key round-robin
scenario where the first key answers 429 with a quota body and the second
answers success, the call returns the success, `totalSuccesses` of the
second key is 1, `totalFailures` of the first key is 1 with a recorded
status 429, and the breaker of the first key has three consecutive
failures but remains Closed, because three failures are below the default
failure threshold of five. -/
theorem c4_amended_rate_limited_handling :
    (∀ (now : Rat) (k : String) (s : PoolState) (r : Option Nat),
       ((handlePoolFailure now (ORErr.rateLimit r) k s).1.breakers k).consecutiveFailures =
         (s.breakers k).consecutiveFailures + 3 ∧
       (handlePoolFailure now (ORErr.rateLimit r) k s).1.totalFailures k =
         s.totalFailures k + 1 ∧
       (handlePoolFailure now (ORErr.rateLimit r) k s).1.failStatuses k =
         s.failStatuses k ++ [some 429] ∧
       (handlePoolFailure now (ORErr.rateLimit r) k s).2.1 = none ∧
       (handlePoolFailure now (ORErr.rateLimit r) k s).2.2 =
         (match r with
          | some t => min t 30
          | none => 0)) ∧
    (executeWithPool stubC4 scenarioPool 3 0).result = Except.ok "ok" ∧
    (executeWithPool stubC4 scenarioPool 3 0).state.totalSuccesses "B" = 1 ∧
    (executeWithPool stubC4 scenarioPool 3 0).state.totalFailures "A" = 1 ∧
    (executeWithPool stubC4 scenarioPool 3 0).state.failStatuses "A" = [some 429] ∧
    ((executeWithPool stubC4 scenarioPool 3 0).state.breakers "A").consecutiveFailures = 3 ∧
    ((executeWithPool stubC4 scenarioPool 3 0).state.breakers "A").st = CircuitState.closed ∧
    (executeWithPool stubC4 scenarioPool 3 0).attempts = 2 := by
  refine ⟨?_, by with_unfolding_all rfl, by with_unfolding_all rfl, by with_unfolding_all rfl,
    by with_unfolding_all rfl, by with_unfolding_all rfl, by with_unfolding_all rfl,
    by with_unfolding_all rfl⟩
  intro now k s r
  refine ⟨?_, ?_, ?_, rfl, ?_⟩
  · simp [handlePoolFailure, poolRecordFailure, updateMap, cbRecordFailure_cf]
  · simp [handlePoolFailure, poolRecordFailure, updateMap]
  · simp [handlePoolFailure, poolRecordFailure, updateMap]
  · cases r with
    | none => rfl
    | some t =>
        simp only [handlePoolFailure]
        by_cases ht : t = 0
        · subst ht; simp
        · simp [ht]

/-- The four retryable errors never terminate the pool loop early. -/
theorem handlePoolFailure_retryable (now : Rat) (k : String) (s : PoolState)
    (e : ORErr) (he : orRetryable e = true) :
    (handlePoolFailure now e k s).2.1 = none := by
  cases e <;> simp_all [orRetryable, handlePoolFailure]

/-- When the stub fails every key with a retryable error, the loop uses
all its fuel, dispatches once per iteration, and finally raises exactly
the error of the last dispatch (unwrapped). -/
theorem execPoolAux_all_fail (stub : String → Except ORErr String)
    (hstub : ∀ k, ∃ e, stub k = Except.error e ∧ orRetryable e = true) :
    ∀ (fuel : Nat) (s : PoolState) (lastError : Option ORErr)
      (ds : List (String × Except ORErr String)) (att idle slp : Nat) (now : Rat),
      ((lastError = none ∧ ds = []) ∨
        (∃ k0 e0, lastError = some e0 ∧ ds.getLast? = some (k0, Except.error e0))) →
      1 ≤ fuel + ds.length →
      ∃ k e,
        (execPoolAux stub fuel s lastError ds att idle slp now).dispatches.getLast? =
          some (k, Except.error e) ∧
        (execPoolAux stub fuel s lastError ds att idle slp now).result = Except.error e ∧
        (execPoolAux stub fuel s lastError ds att idle slp now).dispatches.length =
          ds.length + fuel := by
  intro fuel
  induction fuel with
  | zero =>
      intro s lastError ds att idle slp now hinv hpos
      rw [execPoolAux_zero]
      rcases hinv with ⟨-, hds⟩ | ⟨k0, e0, hle, hlast⟩
      · subst hds; simp at hpos
      · subst hle
        exact ⟨k0, e0, hlast, rfl, rfl⟩
  | succ n ih =>
      intro s lastError ds att idle slp now hinv _
      rw [execPoolAux_succ]
      obtain ⟨k, hk⟩ := selectKey_isSome now s
      rcases hsel : selectKey now s with ⟨kOpt, s1, tr⟩
      rw [hsel] at hk
      simp only at hk
      subst hk
      obtain ⟨e, hse, hre⟩ := hstub k
      rcases hH : handlePoolFailure now e k s1 with ⟨s2, terminal, d⟩
      have hterm : terminal = none := by
        have h := handlePoolFailure_retryable now k s1 e hre
        rw [hH] at h
        exact h
      subst hterm
      simp only [hse, hH]
      have h := ih s2 (some e) (ds ++ [(k, Except.error e)]) (att + 1) idle (slp + d) (now + d)
        (Or.inr ⟨k, e, rfl, List.getLast?_concat _⟩)
        (by simp only [List.length_append, List.length_cons, List.length_nil]; omega)
      obtain ⟨k2, e2, h1, h2, h3⟩ := h
      refine ⟨k2, e2, h1, h2, ?_⟩
      rw [h3]
      simp
      omega

/-- C5 counterexample: when every attempt fails with a retryable timeout
the pool raises the last typed error itself (`OpenRouterTimeoutError`),
not a distinct `AllKeysExhausted` wrapper over it; the bare "All keys
exhausted" client error is a different value and is not raised here. -/
theorem c5_counterexample :
    (executeWithPool stubTimeout scenarioPool 3 0).result = Except.error ORErr.timedOut ∧
    (executeWithPool stubTimeout scenarioPool 3 0).attempts = 9 ∧
    ORErr.timedOut ≠ ORErr.base "All keys exhausted" := by
  refine ⟨by with_unfolding_all rfl, by with_unfolding_all rfl, by decide⟩

/-- C5 (amended): a pool call makes at most `len(keys) * perKeyMaxRetries`
attempts, and when every attempt fails with a retryable error the error
finally raised is the last typed error itself, unwrapped; the generic
"All keys exhausted" `OpenRouterClientError` is raised only when no
attempt was made at all (`maxAttempts = 0`). -/
theorem c5_amended_exhaustion :
    (∀ (stub : String → Except ORErr String) (s : PoolState) (m : Nat) (now : Rat),
       (executeWithPool stub s m now).attempts ≤ s.keys.length * m) ∧
    (∀ (stub : String → Except ORErr String) (s : PoolState) (m : Nat) (now : Rat),
       (∀ k, ∃ e, stub k = Except.error e ∧ orRetryable e = true) →
       1 ≤ s.keys.length * m →
       ∃ k e,
         (executeWithPool stub s m now).dispatches.getLast? = some (k, Except.error e) ∧
         (executeWithPool stub s m now).result = Except.error e ∧
         (executeWithPool stub s m now).dispatches.length = s.keys.length * m) ∧
    (∀ (stub : String → Except ORErr String) (s : PoolState) (now : Rat),
       (executeWithPool stub s 0 now).result =
         Except.error (ORErr.base "All keys exhausted")) := by
  refine ⟨?_, ?_, fun stub s now => rfl⟩
  · intro stub s m now
    have h := (execPoolAux_counts stub (s.keys.length * m) s none [] 0 0 0 now).2.2
    unfold executeWithPool
    omega
  · intro stub s m now hstub hpos
    have h := execPoolAux_all_fail stub hstub (s.keys.length * m) s none [] 0 0 0 now
      (Or.inl ⟨rfl, rfl⟩) (by simpa using hpos)
    obtain ⟨k, e, h1, h2, h3⟩ := h
    exact ⟨k, e, h1, h2, by simpa using h3⟩

/-- Witness for the amended C5 theorem: the all-timeout scenario on the
three-key pool uses all nine attempts and raises the last timeout. -/
theorem c5_amended_witness :
    ∃ k e,
      (executeWithPool stubTimeout scenarioPool 3 0).dispatches.getLast? =
        some (k, Except.error e) ∧
      (executeWithPool stubTimeout scenarioPool 3 0).result = Except.error e ∧
      (executeWithPool stubTimeout scenarioPool 3 0).dispatches.length = 9 :=
  c5_amended_exhaustion.2.1 stubTimeout scenarioPool 3 0
    (fun _ => ⟨ORErr.timedOut, rfl, rfl⟩) (by decide)

/-- C9: constructing the pool client with an empty key list fails with
`ValueError("At least one API key is required")` before any per-key state
is created (the constructor returns no pool at all), and every
successfully constructed pool holds exactly the non-empty key list it was
given. -/
theorem c9_empty_pool_rejected :
    (∀ (q m : Rat) (thr : Nat) (rec : Rat),
       mkOpenRouterPool [] q m thr rec =
         Except.error "At least one API key is required") ∧
    (∀ (keys : List String) (q m : Rat) (thr : Nat) (rec : Rat) (p : PoolState),
       mkOpenRouterPool keys q m thr rec = Except.ok p → keys ≠ [] ∧ p.keys = keys) := by
  refine ⟨fun q m thr rec => rfl, ?_⟩
  intro keys q m thr rec p hp
  constructor
  · intro hnil
    subst hnil
    simp [mkOpenRouterPool] at hp
  · unfold mkOpenRouterPool at hp
    by_cases hk : keys.isEmpty = true
    · rw [if_pos hk] at hp
      cases hp
    · rw [if_neg hk] at hp
      cases hp
      rfl

/-- Witness for C9: a concrete one-key pool construction succeeds and
keeps its key. -/
theorem c9_witness : (["k1"] : List String) ≠ [] ∧ onePool.keys = ["k1"] :=
  c9_empty_pool_rejected.2 ["k1"] 10 1 5 60 onePool rfl

/-- Membership in a merge: exactly the old and the new elements. -/
theorem mem_mergeNew (ips : List String) :
    ∀ (acc : List String) (y : String), y ∈ mergeNew acc ips ↔ y ∈ acc ∨ y ∈ ips := by
  induction ips with
  | nil => intro acc y; simp [mergeNew]
  | cons x xs ih =>
      intro acc y
      rw [show mergeNew acc (x :: xs) = mergeNew (insertNew acc x) xs from rfl, ih]
      unfold insertNew
      by_cases hx : x ∈ acc
      · rw [if_pos hx]
        constructor
        · rintro (h | h)
          · exact Or.inl h
          · exact Or.inr (List.mem_cons_of_mem _ h)
        · rintro (h | h)
          · exact Or.inl h
          · rcases List.mem_cons.mp h with h | h
            · subst h; exact Or.inl hx
            · exact Or.inr h
      · rw [if_neg hx]
        simp only [List.mem_append, List.mem_singleton, List.mem_cons]
        tauto

/-- Merging a concatenation is merging in two stages. -/
theorem mergeNew_append (acc xs ys : List String) :
    mergeNew acc (xs ++ ys) = mergeNew (mergeNew acc xs) ys := by
  simp [mergeNew, List.foldl_append]

/-- Merging an already deduplicated list is the same as merging the raw
list. -/
theorem mergeNew_mergeNew (xs : List String) :
    ∀ (pre acc : List String),
      mergeNew acc (mergeNew pre xs) = mergeNew (mergeNew acc pre) xs := by
  induction xs with
  | nil => intro pre acc; rfl
  | cons x xs ih =>
      intro pre acc
      rw [show mergeNew pre (x :: xs) = mergeNew (insertNew pre x) xs from rfl,
        show mergeNew (mergeNew acc pre) (x :: xs) =
          mergeNew (insertNew (mergeNew acc pre) x) xs from rfl,
        ih (insertNew pre x) acc]
      congr 1
      unfold insertNew
      by_cases hx : x ∈ pre
      · rw [if_pos hx, if_pos ((mem_mergeNew pre acc x).mpr (Or.inr hx))]
      · rw [if_neg hx, mergeNew_append]
        rfl

/-- Folding merges over a list of domains merges the concatenation. -/
theorem foldl_mergeNew_flat (vals : String → List String) :
    ∀ (ds : List String) (acc : List String),
      ds.foldl (fun a d => mergeNew a (vals d)) acc = mergeNew acc (ds.flatMap vals) := by
  intro ds
  induction ds with
  | nil => intro acc; rfl
  | cons d ds ih =>
      intro acc
      simp only [List.foldl_cons, List.flatMap_cons]
      rw [ih, mergeNew_append]

/-- The specification-side union coincides with merging the per-domain
IPv4 contributions. -/
theorem unionSpec_eq_flat (dns : String → Nat → Option (List String))
    (domains : List String) :
    unionSpec dns domains = mergeNew [] (domains.flatMap (domainIpv4s dns)) := by
  unfold unionSpec domainIpv4s
  refine congrArg _ (congrArg _ (funext fun d => ?_))
  rw [show List.range 3 = [0, 1, 2] from rfl]
  simp [List.filter_append, List.append_assoc]

/-- Resolution of one domain succeeds exactly when its third attempt
succeeds, and then yields its deduplicated IPv4 contributions. -/
theorem resolveOneDomain_eq (dns : String → Nat → Option (List String)) (d : String)
    (h : (dns d 2).isSome = true) :
    resolveOneDomain dns d = Except.ok (mergeNew [] (domainIpv4s dns d)) := by
  obtain ⟨v, hv⟩ := Option.isSome_iff_exists.mp h
  simp [resolveOneDomain, hv, domainIpv4s, List.append_assoc]

/-- Computation rule: binding a successful `Except` applies the
continuation. -/
theorem exceptBind_ok {e a b : Type} (x : a) (f : a → Except e b) :
    (Except.ok x >>= f) = f x := rfl

/-- Computation rule: `pure` builds a successful `Except`. -/
theorem exceptPure {e a : Type} (x : a) : (pure x : Except e a) = Except.ok x := rfl

/-- Computation rule: binding a failed `Except` propagates the error. -/
theorem exceptBind_err {e a b : Type} (m : e) (f : a → Except e b) :
    (Except.error m >>= f) = Except.error m := rfl

/-- When the third attempt of every domain succeeds, the resolution fold
succeeds and computes the running merge of the per-domain IPv4
contributions. -/
theorem resolveFold_ok (dns : String → Nat → Option (List String)) :
    ∀ (domains : List String) (acc : List String),
      (∀ d ∈ domains, (dns d 2).isSome = true) →
      (List.foldlM (fun (acc : List String) d => do
        let ips ← resolveOneDomain dns d
        pure (mergeNew acc ips)) acc domains : Except String (List String)) =
        Except.ok (domains.foldl
          (fun a d => mergeNew a (mergeNew [] (domainIpv4s dns d))) acc) := by
  intro domains
  induction domains with
  | nil => intro acc _; rfl
  | cons d ds ih =>
      intro acc h
      rw [List.foldlM_cons, resolveOneDomain_eq dns d (h d (List.mem_cons_self d ds))]
      simp only [exceptBind_ok, exceptPure]
      rw [List.foldl_cons]
      exact ih _ (fun x hx => h x (List.mem_cons_of_mem _ hx))

/-- When some domain's third attempt fails, the resolution fold fails. -/
theorem resolveFold_err (dns : String → Nat → Option (List String)) :
    ∀ (domains : List String) (acc : List String),
      (∃ d ∈ domains, dns d 2 = none) →
      ∃ msg, (List.foldlM (fun (acc : List String) d => do
        let ips ← resolveOneDomain dns d
        pure (mergeNew acc ips)) acc domains : Except String (List String)) =
        Except.error msg := by
  intro domains
  induction domains with
  | nil =>
      intro acc h
      obtain ⟨d, hd, -⟩ := h
      exact absurd hd (List.not_mem_nil d)
  | cons d ds ih =>
      intro acc h
      rw [List.foldlM_cons]
      cases hd2 : dns d 2 with
      | none =>
          refine ⟨"Failed to resolve domain " ++ d, ?_⟩
          rw [show resolveOneDomain dns d = Except.error ("Failed to resolve domain " ++ d) by
            simp [resolveOneDomain, hd2]]
          rfl
      | some v =>
          have hds : ∃ x ∈ ds, dns x 2 = none := by
            obtain ⟨x, hx, hx2⟩ := h
            rcases List.mem_cons.mp hx with heq | hmem
            · subst heq; rw [hd2] at hx2; cases hx2
            · exact ⟨x, hmem, hx2⟩
          rw [resolveOneDomain_eq dns d (by rw [hd2]; rfl)]
          simp only [exceptBind_ok, exceptPure]
          exact ih _ hds

/-- C7 counterexample: with domains `["example.com", "api.googleapis.com"]`
and a DNS oracle answering `1.2.3.4` to every query, the route-target
list is exactly the three hard-coded CIDR blocks — `example.com` is never
resolved and `1.2.3.4` is dropped, although the claim requires the
addresses of every configured domain to be unioned in.  Separately, with
a single domain whose attempts 0 and 1 succeed but whose attempt 2 fails,
resolution raises an error although not all attempts for the domain
failed. -/
theorem c7_counterexample :
    resolveDomains dnsSimple ["example.com", "api.googleapis.com"] =
      Except.ok googleCidrs ∧
    dnsSimple "example.com" 0 = some ["1.2.3.4"] ∧
    "1.2.3.4" ∉ googleCidrs ∧
    (∃ msg, resolveDomains dnsFlaky ["example.com"] = Except.error msg) ∧
    dnsFlaky "example.com" 0 = some ["1.2.3.4"] ∧
    dnsFlaky "example.com" 1 = some ["1.2.3.4"] :=
  ⟨rfl, rfl, by decide, ⟨_, rfl⟩, rfl, rfl⟩

/-- C7 (amended): when ANY configured domain contains `googleapis.com` as
a substring, the entire route-target list is the three hard-coded CIDR
blocks and no per-domain resolution happens at all; otherwise each
domain's resolution is attempted exactly 3 times, the IPv4 addresses of
all successful attempts of all domains are unioned (deduplicated,
first-occurrence order) into the route-target list, an empty union is an
error, and a bootstrap error is raised whenever some domain's third
attempt fails — even if its earlier attempts succeeded. -/
theorem c7_amended_resolution :
    (∀ (dns : String → Nat → Option (List String)) (domains : List String),
       domains.any isGoogleDomain = true →
       resolveDomains dns domains = Except.ok googleCidrs) ∧
    (∀ (dns : String → Nat → Option (List String)) (domains : List String),
       domains.any isGoogleDomain = false →
       (∀ d ∈ domains, (dns d 2).isSome = true) →
       resolveDomains dns domains =
         (if (unionSpec dns domains).isEmpty then
            Except.error "DNS lookup returned no IPv4 addresses."
          else Except.ok (unionSpec dns domains))) ∧
    (∀ (dns : String → Nat → Option (List String)) (domains : List String),
       domains.any isGoogleDomain = false →
       (∃ d ∈ domains, dns d 2 = none) →
       ∃ msg, resolveDomains dns domains = Except.error msg) := by
  refine ⟨?_, ?_, ?_⟩
  · intro dns domains hg
    unfold resolveDomains
    rw [if_pos hg]
  · intro dns domains hg hall
    unfold resolveDomains
    rw [if_neg (by simp [hg])]
    rw [resolveFold_ok dns domains [] hall]
    simp only [exceptBind_ok]
    rw [show (List.foldl (fun a d => mergeNew a (mergeNew [] (domainIpv4s dns d))) [] domains) =
        unionSpec dns domains by
      rw [show (fun (a : List String) d => mergeNew a (mergeNew [] (domainIpv4s dns d))) =
          (fun (a : List String) d => mergeNew a (domainIpv4s dns d)) from
        funext fun a => funext fun d => by rw [mergeNew_mergeNew]; rfl]
      rw [foldl_mergeNew_flat (domainIpv4s dns) domains [], unionSpec_eq_flat]]
  · intro dns domains hg herr
    unfold resolveDomains
    rw [if_neg (by simp [hg])]
    obtain ⟨msg, hmsg⟩ := resolveFold_err dns domains [] herr
    rw [hmsg]
    exact ⟨msg, rfl⟩

/-- Witness for the amended C7 theorem: concrete runs of the whitelist
path and of the plain resolution path. -/
theorem c7_amended_witness :
    resolveDomains dnsSimple ["a.googleapis.com"] = Except.ok googleCidrs ∧
    resolveDomains dnsSimple ["example.com"] = Except.ok ["1.2.3.4"] := by
  constructor
  · exact c7_amended_resolution.1 dnsSimple ["a.googleapis.com"] (by decide)
  · rw [c7_amended_resolution.2.1 dnsSimple ["example.com"] (by decide) (fun d _ => rfl)]
    with_unfolding_all rfl

/-- A successful `runCmds` executed exactly the given commands. -/
theorem runCmdsAux_ok (oracle : Cmd → Bool) :
    ∀ (cmds : List Cmd) (acc : List Cmd) (l : List Cmd),
      (List.foldlM (fun acc c =>
        if oracle c then Except.ok (acc ++ [c])
        else Except.error ("Command failed: " ++ String.intercalate " " c)) acc cmds :
        Except String (List Cmd)) = Except.ok l → l = acc ++ cmds := by
  intro cmds
  induction cmds with
  | nil =>
      intro acc l h
      rw [List.foldlM_nil] at h
      cases h
      simp
  | cons c cs ih =>
      intro acc l h
      rw [List.foldlM_cons] at h
      by_cases hc : oracle c = true
      · rw [if_pos hc, exceptBind_ok] at h
        have := ih (acc ++ [c]) l h
        subst this
        simp
      · rw [if_neg hc, exceptBind_err] at h
        cases h

/-- A successful `runCmds` returns its command list as the trace. -/
theorem runCmds_ok (oracle : Cmd → Bool) (cmds tr : List Cmd)
    (h : runCmds oracle cmds = Except.ok tr) : tr = cmds := by
  have := runCmdsAux_ok oracle cmds [] tr h
  simpa using this

/-- Deleting the default route through the tunnel interface removes a
default route that goes through it. -/
theorem applyCmd_del (t : RouteTable) (iface g : String)
    (h : t.dflt = some (g, iface)) :
    (applyCmd t (cmdDelDefault iface)).dflt = none := by
  simp [applyCmd, cmdDelDefault, h]

/-- Restoring the captured default route installs its gateway and
device, whatever the table held before. -/
theorem applyCmd_restore (t : RouteTable) (r : DefaultRoute) :
    (applyCmd t (cmdRestoreDefault r)).dflt = some (r.gateway, r.dev) := by
  cases hm : r.metric <;> simp [applyCmd, cmdRestoreDefault, hm]

/-- A per-target route through the tunnel interface leaves the default
route alone, as long as the target is not the literal string
`default`. -/
theorem applyCmd_routeViaInterface (t : RouteTable) (tgt iface : String)
    (h : tgt ≠ "default") :
    applyCmd t (cmdRouteViaInterface tgt iface) = t := by
  unfold applyCmd cmdRouteViaInterface
  split <;> simp_all

/-- A bypass route through the original gateway preserves a default route
that already equals the original one (a literal `default` bypass entry
re-installs exactly that default). -/
theorem applyCmd_routeViaGateway_preserve (t : RouteTable) (tgt : String)
    (r : DefaultRoute) (h : t.dflt = some (r.gateway, r.dev)) :
    (applyCmd t (cmdRouteViaGateway tgt r)).dflt = some (r.gateway, r.dev) := by
  unfold applyCmd cmdRouteViaGateway
  split <;> simp_all

/-- Folding commands that each preserve the default route preserves the
default route. -/
theorem foldl_applyCmd_preserve (g d : String) :
    ∀ (cmds : List Cmd) (t : RouteTable),
      t.dflt = some (g, d) →
      (∀ c ∈ cmds, ∀ t2 : RouteTable,
        t2.dflt = some (g, d) → (applyCmd t2 c).dflt = some (g, d)) →
      (cmds.foldl applyCmd t).dflt = some (g, d) := by
  intro cmds
  induction cmds with
  | nil => intro t ht _; simpa using ht
  | cons c cs ih =>
      intro t ht hall
      rw [List.foldl_cons]
      exact ih (applyCmd t c) (hall c (List.mem_cons_self c cs) t ht)
        (fun x hx => hall x (List.mem_cons_of_mem _ hx))

/-- C6: in split-tunnel mode (`routeMode` = domains or cidr), whenever the
route configuration returns successfully with a captured pre-bootstrap
default route, its command trace starts by deleting the default route
through the tunnel and then restores the original default route, so that
the final routing table's default route equals the captured original
gateway and device whatever table the trace is applied to (the only route
commands issued afterwards target individual destinations and a literal
`default` target is excluded by hypothesis); and when no default route
was captured, split-tunnel configuration fails with an error instead. -/
theorem c6_split_tunnel_restores_default
    (iface : String) (env : VpnEnv) (defaultRoute : Option DefaultRoute)
    (dns : String → Nat → Option (List String)) (oracle : Cmd → Bool)
    (hmode : (env.routeMode.getD "domains").trim.toLower = "domains" ∨
      (env.routeMode.getD "domains").trim.toLower = "cidr") :
    (defaultRoute = none →
      ∃ msg, configureSplitTunnel iface env none dns oracle = Except.error msg) ∧
    (∀ (r : DefaultRoute) (tr : List Cmd),
      defaultRoute = some r →
      configureSplitTunnel iface env defaultRoute dns oracle = Except.ok tr →
      cmdRouteViaInterface "default" iface ∉ tr →
      tr.head? = some (cmdDelDefault iface) ∧
      ∀ t0 : RouteTable, (tr.foldl applyCmd t0).dflt = some (r.gateway, r.dev)) := by
  have hvalid : (!((env.routeMode.getD "domains").trim.toLower == "all" ||
      (env.routeMode.getD "domains").trim.toLower == "domains" ||
      (env.routeMode.getD "domains").trim.toLower == "cidr")) = false := by
    rcases hmode with h | h <;> rw [h] <;> rfl
  have hall : ((env.routeMode.getD "domains").trim.toLower == "all") = false := by
    rcases hmode with h | h <;> rw [h] <;> rfl
  constructor
  · intro _
    refine ⟨"Split-tunnel mode requires detecting the original default route.", ?_⟩
    simp only [configureSplitTunnel]
    rw [hvalid, hall]
    rfl
  · intro r tr hdr hok hnotmem
    subst hdr
    simp only [configureSplitTunnel] at hok
    rw [hvalid, hall] at hok
    simp only [Bool.false_eq_true, if_false] at hok
    cases htg : splitTunnelTargets ((env.routeMode.getD "domains").trim.toLower) env dns with
    | error m =>
        rw [htg, exceptBind_err] at hok
        cases hok
    | ok targets =>
        rw [htg, exceptBind_ok] at hok
        cases hrun : runCmds oracle
            ([cmdRestoreDefault r] ++
              targets.map (fun t => cmdRouteViaInterface t iface) ++
              (parseCsv env.bypassCidrs).map (fun c => cmdRouteViaGateway c r)) with
        | error m =>
            rw [hrun, exceptBind_err] at hok
            cases hok
        | ok tail =>
            rw [hrun, exceptBind_ok, exceptPure] at hok
            cases hok
            have htail := runCmds_ok oracle _ tail hrun
            subst htail
            refine ⟨rfl, ?_⟩
            intro t0
            simp only [List.nil_append, List.cons_append, List.foldl_cons, List.foldl_append]
            have hres : (applyCmd (applyCmd t0 (cmdDelDefault iface))
                (cmdRestoreDefault r)).dflt = some (r.gateway, r.dev) :=
              applyCmd_restore _ r
            have hmid : ((targets.map (fun t => cmdRouteViaInterface t iface)).foldl
                applyCmd (applyCmd (applyCmd t0 (cmdDelDefault iface))
                  (cmdRestoreDefault r))).dflt = some (r.gateway, r.dev) := by
              refine foldl_applyCmd_preserve r.gateway r.dev _ _ hres ?_
              intro c hc t2 ht2
              obtain ⟨tgt, htgtmem, hceq⟩ := List.mem_map.mp hc
              subst hceq
              have htgtne : tgt ≠ "default" := by
                intro hteq
                subst hteq
                exact hnotmem (by
                  refine List.mem_cons_of_mem _ ?_
                  refine List.mem_cons_of_mem _ ?_
                  exact List.mem_append_left _ (List.mem_map_of_mem _ htgtmem))
              rw [applyCmd_routeViaInterface t2 tgt iface htgtne]
              exact ht2
            refine foldl_applyCmd_preserve r.gateway r.dev _ _ hmid ?_
            intro c hc t2 ht2
            obtain ⟨cidr, -, hceq⟩ := List.mem_map.mp hc
            subst hceq
            exact applyCmd_routeViaGateway_preserve t2 cidr r ht2

/-- Witness for C6: the end-to-end scenario-5 configuration (domains mode,
Google CIDR blocks, one bypass CIDR, original default via
`192.168.1.1 dev eth0`).  Starting from a table whose default goes through
the tunnel, the trace restores the original default; and the same
configuration without a captured default route fails. -/
theorem c6_witness :
    (∃ msg, configureSplitTunnel "wg0" envScenario5 none dnsSimple (fun _ => true) =
      Except.error msg) ∧
    (([["ip", "route", "del", "default", "dev", "wg0"],
       ["ip", "route", "replace", "default", "via", "192.168.1.1", "dev", "eth0"],
       ["ip", "route", "replace", "142.250.0.0/15", "dev", "wg0"],
       ["ip", "route", "replace", "172.217.0.0/16", "dev", "wg0"],
       ["ip", "route", "replace", "216.58.192.0/19", "dev", "wg0"],
       ["ip", "route", "replace", "10.0.0.0/8", "via", "192.168.1.1", "dev", "eth0"]] :
      List Cmd).foldl applyCmd { dflt := some ("10.0.0.1", "wg0") }).dflt =
      some ("192.168.1.1", "eth0") := by
  constructor
  · exact (c6_split_tunnel_restores_default "wg0" envScenario5 none dnsSimple
      (fun _ => true) (Or.inl (by with_unfolding_all rfl))).1 rfl
  · have h := (c6_split_tunnel_restores_default "wg0" envScenario5 (some origRoute)
      dnsSimple (fun _ => true) (Or.inl (by with_unfolding_all rfl))).2 origRoute
      [["ip", "route", "del", "default", "dev", "wg0"],
       ["ip", "route", "replace", "default", "via", "192.168.1.1", "dev", "eth0"],
       ["ip", "route", "replace", "142.250.0.0/15", "dev", "wg0"],
       ["ip", "route", "replace", "172.217.0.0/16", "dev", "wg0"],
       ["ip", "route", "replace", "216.58.192.0/19", "dev", "wg0"],
       ["ip", "route", "replace", "10.0.0.0/8", "via", "192.168.1.1", "dev", "eth0"]]
      rfl (by with_unfolding_all rfl) (by decide)
    exact h.2 { dflt := some ("10.0.0.1", "wg0") }

/-- C8 counterexample: with Hysteria2 enabled, the process running, the
SOCKS5 port open but the HTTP proxy port closed, and a passing probe, the
overall status is Healthy — not Degraded as the claim requires for
"either proxy port closed": the code only degrades when the process is
down or BOTH ports are closed. -/
theorem c8_counterexample :
    gatherVpnHealthStatus true VpnType.hysteria2
      (collectHysteria2Status 1080 8080 true true false) none true none ProbeOutcome.ok =
      HealthStatus.healthy ∧
    (collectHysteria2Status 1080 8080 true true false).httpAccessible = false ∧
    (collectHysteria2Status 1080 8080 true true false).error.isSome = true ∧
    HealthStatus.healthy ≠ HealthStatus.degraded :=
  ⟨rfl, rfl, rfl, by decide⟩

/-- C8 (amended): the overall status is Disabled when the VPN is off; with
Hysteria2 it is Degraded exactly when the process is not running, or both
proxy ports are closed, or the probe fails (a single closed port only adds
a detail message and stays Healthy); with the interface-based backends it
is Degraded exactly when the interface check errors, the interface is
down, the tunnel tool reports an error, or the probe fails; and the probe
is Ok exactly for HTTP statuses below 500 — in particular a probe
answering 404 yields outcome Ok and overall status Healthy. -/
theorem c8_amended_overall_status :
    (∀ (vt : VpnType) (hy : Hysteria2Status) (ifaceErr : Option String)
       (ifaceUp : Bool) (wgErr : Option String) (probe : ProbeOutcome),
       gatherVpnHealthStatus false vt hy ifaceErr ifaceUp wgErr probe =
         HealthStatus.disabled) ∧
    (∀ (sp hp : Nat) (running socksUp httpUp : Bool) (probe : ProbeOutcome),
       gatherVpnHealthStatus true VpnType.hysteria2
         (collectHysteria2Status sp hp running socksUp httpUp) none true none probe =
         (if running = false ∨ (socksUp = false ∧ httpUp = false) ∨
             probe = ProbeOutcome.fail
          then HealthStatus.degraded else HealthStatus.healthy)) ∧
    (∀ (vt : VpnType), vt ≠ VpnType.hysteria2 →
       ∀ (hy : Hysteria2Status) (ifaceErr : Option String) (ifaceUp : Bool)
         (wgErr : Option String) (probe : ProbeOutcome),
       gatherVpnHealthStatus true vt hy ifaceErr ifaceUp wgErr probe =
         (if ifaceErr.isSome ∨ ifaceUp = false ∨ wgErr.isSome ∨
             probe = ProbeOutcome.fail
          then HealthStatus.degraded else HealthStatus.healthy)) ∧
    classifyProbe (Except.ok 404) = (ProbeOutcome.ok, some 404) ∧
    (∀ msg : String, classifyProbe (Except.error msg) = (ProbeOutcome.fail, none)) ∧
    (∀ code : Nat, 500 ≤ code → (classifyProbe (Except.ok code)).1 = ProbeOutcome.fail) ∧
    wireguardOverall none true none (classifyProbe (Except.ok 404)).1 =
      HealthStatus.healthy := by
  refine ⟨fun vt hy ifaceErr ifaceUp wgErr probe => rfl, ?_, ?_, rfl, fun msg => rfl, ?_, rfl⟩
  · intro sp hp running socksUp httpUp probe
    cases running <;> cases socksUp <;> cases httpUp <;> cases probe <;> rfl
  · intro vt hne hy ifaceErr ifaceUp wgErr probe
    cases vt
    case hysteria2 => exact absurd rfl hne
    all_goals cases ifaceErr <;> cases wgErr <;> cases ifaceUp <;> cases probe <;> rfl
  · intro code h
    simp [classifyProbe, Nat.not_lt.mpr h]

/-- Witness for the amended C8 theorem: a concrete healthy WireGuard
report and a concrete failing probe status. -/
theorem c8_amended_witness :
    gatherVpnHealthStatus true VpnType.wireguard
      (collectHysteria2Status 1080 8080 false false false) none true none
      ProbeOutcome.ok = HealthStatus.healthy ∧
    (classifyProbe (Except.ok 500)).1 = ProbeOutcome.fail := by
  constructor
  · rw [c8_amended_overall_status.2.2.1 VpnType.wireguard (by decide)
      (collectHysteria2Status 1080 8080 false false false) none true none ProbeOutcome.ok]
    decide
  · exact c8_amended_overall_status.2.2.2.2.2.1 500 (by decide)
